import Mathlib

/-!
Verification development for the bakery management backend
(`src/backend/server.py`).

The Python service is a CRUD backend over three Mongo collections
(clientes, productos, pedidos).  We embed it shallowly: the database is an
explicit `DB` value (one list per collection, in insertion order, matching
Mongo's natural order for unsorted queries), every endpoint becomes a pure
function from the current `DB` (plus the request data) to the next `DB`
together with an `Except HTTPException` result, and Mongo operations are
translated as follows:

* `find_one {"id": x}`   becomes `List.find?` (first match);
* `insert_one d`         becomes appending to the collection list;
* `update_one {"id": x} {"$set": fields}` becomes replacing the named
  fields of the first matching record, leaving every other record and
  every unnamed field untouched;
* `count_documents f`    becomes `(filter f).length` (uncapped);
* `find(f).to_list(1000)` becomes `(filter f).take 1000` (Mongo returns at
  most 1000 documents for that call).

Python floats (product prices, totals) are modelled as `ℚ`; quantities
(`cantidad`) come from untyped JSON dicts and are modelled as `ℤ`.
Server-generated values (`uuid.uuid4()`, `datetime.utcnow()`) are passed
in as explicit parameters (`newId`, `now`).
-/

/-- Models `fastapi.HTTPException(status_code=..., detail=...)`. -/
structure HTTPException where
  status_code : Nat
  detail : String
deriving Repr, DecidableEq

/-- Model of the `Cliente` pydantic document (server.py lines 29-35). -/
structure Cliente where
  id : String
  nombre : String
  telefono : String
  email : Option String
  direccion : Option String
  fecha_registro : Nat
deriving Repr, DecidableEq

/-- Model of the `ClienteCreate` request body (server.py lines 37-41). -/
structure ClienteCreate where
  nombre : String
  telefono : String
  email : Option String
  direccion : Option String
deriving Repr, DecidableEq

/-- Model of the `Producto` pydantic document (server.py lines 43-49). -/
structure Producto where
  id : String
  nombre : String
  precio : ℚ
  categoria : String
  descripcion : Option String
  disponible : Bool
deriving Repr, DecidableEq

/-- Model of the `ProductoCreate` request body (server.py lines 51-56). -/
structure ProductoCreate where
  nombre : String
  precio : ℚ
  categoria : String
  descripcion : Option String
  disponible : Bool
deriving Repr, DecidableEq

/-- Model of the embedded `DetalleProducto` order line (server.py lines 58-63). -/
structure DetalleProducto where
  producto_id : String
  nombre_producto : String
  cantidad : ℤ
  precio_unitario : ℚ
  subtotal : ℚ
deriving Repr, DecidableEq

/-- Model of the `Pedido` document (server.py lines 65-73).  The estimated
delivery date is stored as the parsed (year, month, day) triple. -/
structure Pedido where
  id : String
  cliente_id : String
  nombre_cliente : String
  fecha_pedido : Nat
  fecha_entrega_estimada : Nat × Nat × Nat
  estado : String
  productos : List DetalleProducto
  total : ℚ
deriving Repr, DecidableEq

/-- Model of one untyped `{producto_id, cantidad}` dict inside
`PedidoCreate.productos` (server.py line 78). -/
structure ItemPedido where
  producto_id : String
  cantidad : ℤ
deriving Repr, DecidableEq

/-- Model of the `PedidoCreate` request body (server.py lines 75-78). -/
structure PedidoCreate where
  cliente_id : String
  fecha_entrega_estimada : String
  productos : List ItemPedido
deriving Repr, DecidableEq

/-- The three Mongo collections, each in insertion order. -/
structure DB where
  clientes : List Cliente
  productos : List Producto
  pedidos : List Pedido
deriving Repr, DecidableEq

/-- Mongo `db.clientes.find_one({"id": cliente_id})`: first matching record. -/
def findCliente (db : DB) (cliente_id : String) : Option Cliente :=
  db.clientes.find? (fun c => c.id == cliente_id)

/-- Mongo `db.productos.find_one({"id": producto_id})`. -/
def findProducto (db : DB) (producto_id : String) : Option Producto :=
  db.productos.find? (fun p => p.id == producto_id)

/-- Mongo `db.pedidos.find_one({"id": pedido_id})`. -/
def findPedido (db : DB) (pedido_id : String) : Option Pedido :=
  db.pedidos.find? (fun p => p.id == pedido_id)

/-- Numeric value of an ASCII digit character. -/
def digitVal (c : Char) : Nat := c.toNat - '0'.toNat

/-- Month field of CPython's `strptime` format regex for `%m`,
`(1[0-2]|0[1-9]|[1-9])`: one digit `1`-`9`, or two digits spelling 01-12. -/
def monthToken : List Char → Option Nat
  | [c] => if c.isDigit && c != '0' then some (digitVal c) else none
  | [c1, c2] =>
    if c1.isDigit && c2.isDigit then
      let v := 10 * digitVal c1 + digitVal c2
      if 1 ≤ v && v ≤ 12 then some v else none
    else none
  | _ => none

/-- Day field of CPython's `strptime` format regex for `%d`,
`(3[01]|[12]\d|0[1-9]|[1-9])`: one digit `1`-`9`, or two digits 01-31. -/
def dayToken : List Char → Option Nat
  | [c] => if c.isDigit && c != '0' then some (digitVal c) else none
  | [c1, c2] =>
    if c1.isDigit && c2.isDigit then
      let v := 10 * digitVal c1 + digitVal c2
      if 1 ≤ v && v ≤ 31 then some v else none
    else none
  | _ => none

/-- Gregorian leap-year test, as in Python's `datetime`. -/
def esBisiesto (y : Nat) : Bool :=
  y % 4 == 0 && (y % 100 != 0 || y % 400 == 0)

/-- Number of days in a month, as validated by Python's `datetime` constructor. -/
def diasEnMes (y m : Nat) : Nat :=
  if m == 2 then (if esBisiesto y then 29 else 28)
  else if m == 4 || m == 6 || m == 9 || m == 11 then 30
  else 31

/-- Models `datetime.strptime(s, "%Y-%m-%d")` (server.py line 171): exactly
four digits of year, a dash, a 1-2 digit month, a dash, a 1-2 digit day,
nothing left over, and the triple must be a real calendar date with
year ≥ 1 (Python's `datetime` MINYEAR).  Returns `none` where Python
raises `ValueError`. -/
def strptime_Ymd (s : String) : Option (Nat × Nat × Nat) :=
  match s.data with
  | y1 :: y2 :: y3 :: y4 :: '-' :: rest =>
    if y1.isDigit && y2.isDigit && y3.isDigit && y4.isDigit then
      let year := ((digitVal y1 * 10 + digitVal y2) * 10 + digitVal y3) * 10 + digitVal y4
      match rest.dropWhile (fun c => c != '-') with
      | '-' :: dtok =>
        match monthToken (rest.takeWhile (fun c => c != '-')), dayToken dtok with
        | some m, some d =>
          if 1 ≤ year && d ≤ diasEnMes year m then some (year, m, d) else none
        | _, _ => none
      | _ => none
    else none
  | _ => none

/-- The `for item in pedido.productos` loop of `crear_pedido` (server.py
lines 179-193): resolves each line's product, short-circuiting with 404 on
the first missing product id, appends the priced line snapshot to
`productos_detalle`, and accumulates `total += subtotal`. -/
def procesarProductos (db : DB) :
    List ItemPedido → List DetalleProducto → ℚ →
    Except HTTPException (List DetalleProducto × ℚ)
  | [], productos_detalle, total => .ok (productos_detalle, total)
  | item :: rest, productos_detalle, total =>
    match findProducto db item.producto_id with
    | none => .error ⟨404, "Producto " ++ item.producto_id ++ " no encontrado"⟩
    | some producto =>
      let subtotal : ℚ := producto.precio * (item.cantidad : ℚ)
      let detalle : DetalleProducto :=
        { producto_id := item.producto_id
          nombre_producto := producto.nombre
          cantidad := item.cantidad
          precio_unitario := producto.precio
          subtotal := subtotal }
      procesarProductos db rest (productos_detalle ++ [detalle]) (total + subtotal)

/-- Models `POST /api/pedidos` (`crear_pedido`, server.py lines 162-205).
`newId` stands for the freshly drawn `uuid4` and `now` for
`datetime.utcnow()`.  Returns the next database state together with the
response; every failure path leaves the state untouched because the single
`insert_one` is the last effect. -/
def crear_pedido (db : DB) (newId : String) (now : Nat) (pedido : PedidoCreate) :
    DB × Except HTTPException Pedido :=
  match findCliente db pedido.cliente_id with
  | none => (db, .error ⟨404, "Cliente no encontrado"⟩)
  | some cliente =>
    match strptime_Ymd pedido.fecha_entrega_estimada with
    | none => (db, .error ⟨400, "Formato de fecha inválido. Use YYYY-MM-DD"⟩)
    | some fecha_entrega =>
      match procesarProductos db pedido.productos [] 0 with
      | .error e => (db, .error e)
      | .ok (productos_detalle, total) =>
        let pedido_obj : Pedido :=
          { id := newId
            cliente_id := pedido.cliente_id
            nombre_cliente := cliente.nombre
            fecha_pedido := now
            fecha_entrega_estimada := fecha_entrega
            estado := "pendiente"
            productos := productos_detalle
            total := total }
        ({ db with pedidos := db.pedidos ++ [pedido_obj] }, .ok pedido_obj)

/-- Models `GET /api/pedidos/{pedido_id}` (server.py lines 212-217). -/
def obtener_pedido (db : DB) (pedido_id : String) : Except HTTPException Pedido :=
  match findPedido db pedido_id with
  | none => .error ⟨404, "Pedido no encontrado"⟩
  | some p => .ok p

/-- Mongo `update_one({"id": cliente_id}, {"$set": cliente_dict})` where
`cliente_dict` holds the four `ClienteCreate` fields: the first matching
record gets those fields replaced (`id` and `fecha_registro` are not in the
`$set` document, so they are kept); later records are untouched. -/
def updateOneCliente : List Cliente → String → ClienteCreate → List Cliente
  | [], _, _ => []
  | x :: xs, cliente_id, c =>
    if x.id == cliente_id then
      { x with nombre := c.nombre, telefono := c.telefono,
               email := c.email, direccion := c.direccion } :: xs
    else
      x :: updateOneCliente xs cliente_id c

/-- Models `PUT /api/clientes/{cliente_id}` (`actualizar_cliente`,
server.py lines 101-111).  The final re-read cannot miss, but we model the
impossible branch as the 500 an uncaught `TypeError` would produce. -/
def actualizar_cliente (db : DB) (cliente_id : String) (cliente : ClienteCreate) :
    DB × Except HTTPException Cliente :=
  match findCliente db cliente_id with
  | none => (db, .error ⟨404, "Cliente no encontrado"⟩)
  | some _ =>
    let db' : DB := { db with clientes := updateOneCliente db.clientes cliente_id cliente }
    match findCliente db' cliente_id with
    | none => (db', .error ⟨500, "Internal Server Error"⟩)
    | some actualizado => (db', .ok actualizado)

/-- Mongo `update_one({"id": producto_id}, {"$set": producto_dict})` where
`producto_dict` holds the five `ProductoCreate` fields (everything but `id`). -/
def updateOneProducto : List Producto → String → ProductoCreate → List Producto
  | [], _, _ => []
  | x :: xs, producto_id, p =>
    if x.id == producto_id then
      { x with nombre := p.nombre, precio := p.precio, categoria := p.categoria,
               descripcion := p.descripcion, disponible := p.disponible } :: xs
    else
      x :: updateOneProducto xs producto_id p

/-- Models `PUT /api/productos/{producto_id}` (`actualizar_producto`,
server.py lines 141-151). -/
def actualizar_producto (db : DB) (producto_id : String) (producto : ProductoCreate) :
    DB × Except HTTPException Producto :=
  match findProducto db producto_id with
  | none => (db, .error ⟨404, "Producto no encontrado"⟩)
  | some _ =>
    let db' : DB := { db with productos := updateOneProducto db.productos producto_id producto }
    match findProducto db' producto_id with
    | none => (db', .error ⟨500, "Internal Server Error"⟩)
    | some actualizado => (db', .ok actualizado)

/-- The `estados_validos` list of `actualizar_estado_pedido` (server.py line 225). -/
def estados_validos : List String :=
  ["pendiente", "en_proceso", "completado", "cancelado"]

/-- Mongo `update_one({"id": pedido_id}, {"$set": {"estado": e}})`: only the
`estado` field of the first matching record is overwritten. -/
def updateOneEstado : List Pedido → String → String → List Pedido
  | [], _, _ => []
  | p :: ps, pedido_id, e =>
    if p.id == pedido_id then { p with estado := e } :: ps
    else p :: updateOneEstado ps pedido_id e

/-- Models `PUT /api/pedidos/{pedido_id}/estado` (`actualizar_estado_pedido`,
server.py lines 219-230).  The `estado` parameter stands for the
`estado["estado"]` entry of the request dict.  Existence is checked first,
then membership in `estados_validos`, then the single-field update runs. -/
def actualizar_estado_pedido (db : DB) (pedido_id : String) (estado : String) :
    DB × Except HTTPException String :=
  match findPedido db pedido_id with
  | none => (db, .error ⟨404, "Pedido no encontrado"⟩)
  | some _ =>
    if estados_validos.contains estado then
      ({ db with pedidos := updateOneEstado db.pedidos pedido_id estado },
       .ok "Estado actualizado exitosamente")
    else
      (db, .error ⟨400, "Estado no válido"⟩)

/-- Shape of the `GET /api/dashboard/estadisticas` response (server.py
lines 256-264). -/
structure Estadisticas where
  total_clientes : Nat
  total_productos : Nat
  total_pedidos : Nat
  pedidos_pendientes : Nat
  pedidos_en_proceso : Nat
  pedidos_completados : Nat
  ingresos_totales : ℚ
deriving Repr, DecidableEq

/-- Models `obtener_estadisticas` (server.py lines 241-264).  The six counts
use `count_documents` (exact); the revenue sum re-reads the completed
orders through `find(...).to_list(1000)`, which returns at most the first
1000 matching documents. -/
def obtener_estadisticas (db : DB) : Estadisticas :=
  { total_clientes := db.clientes.length
    total_productos := db.productos.length
    total_pedidos := db.pedidos.length
    pedidos_pendientes := (db.pedidos.filter (fun p => p.estado == "pendiente")).length
    pedidos_en_proceso := (db.pedidos.filter (fun p => p.estado == "en_proceso")).length
    pedidos_completados := (db.pedidos.filter (fun p => p.estado == "completado")).length
    ingresos_totales :=
      (((db.pedidos.filter (fun p => p.estado == "completado")).take 1000).map Pedido.total).sum }

/-- Projection of a `Pedido` onto every field except `estado`; used to state
that the status update frames all other fields. -/
def sinEstado (p : Pedido) :
    String × String × String × Nat × (Nat × Nat × Nat) × List DetalleProducto × ℚ :=
  (p.id, p.cliente_id, p.nombre_cliente, p.fecha_pedido,
   p.fecha_entrega_estimada, p.productos, p.total)

/-! ## Helper lemmas -/

/-- Specification of a successful run of the product loop: the result list
extends the accumulator by freshly built snapshots, the total grows by the
sum of their quantity × unit-price products, each snapshot's stored
subtotal is quantity × unit price with the price and name taken from the
product record found in the store, and the snapshots keep the request
lines' ids and quantities in order. -/
theorem procesarProductos_ok_spec (db : DB) :
    ∀ (items : List ItemPedido) (acc : List DetalleProducto) (t0 : ℚ)
      (ds : List DetalleProducto) (t : ℚ),
    procesarProductos db items acc t0 = .ok (ds, t) →
    ∃ nuevos, ds = acc ++ nuevos
      ∧ t = t0 + (nuevos.map (fun d => (d.cantidad : ℚ) * d.precio_unitario)).sum
      ∧ (∀ d ∈ nuevos, d.subtotal = (d.cantidad : ℚ) * d.precio_unitario
          ∧ ∃ p, findProducto db d.producto_id = some p
              ∧ d.precio_unitario = p.precio ∧ d.nombre_producto = p.nombre)
      ∧ nuevos.map (fun d => (d.producto_id, d.cantidad))
          = items.map (fun i => (i.producto_id, i.cantidad)) := by
  intro items
  induction items with
  | nil =>
    intro acc t0 ds t h
    simp only [procesarProductos, Except.ok.injEq, Prod.mk.injEq] at h
    obtain ⟨rfl, rfl⟩ := h
    exact ⟨[], by simp, by simp, by simp, by simp⟩
  | cons item rest ih =>
    intro acc t0 ds t h
    simp only [procesarProductos] at h
    cases hf : findProducto db item.producto_id with
    | none => rw [hf] at h; simp at h
    | some producto =>
      rw [hf] at h
      simp only [] at h
      obtain ⟨nuevos, h1, h2, h3, h4⟩ := ih _ _ _ _ h
      refine ⟨{ producto_id := item.producto_id, nombre_producto := producto.nombre,
                cantidad := item.cantidad, precio_unitario := producto.precio,
                subtotal := producto.precio * (item.cantidad : ℚ) } :: nuevos,
              ?_, ?_, ?_, ?_⟩
      · rw [h1, List.append_assoc]; rfl
      · rw [h2]; simp; ring
      · intro d hd
        rcases List.mem_cons.1 hd with rfl | hd
        · exact ⟨mul_comm _ _, producto, hf, rfl, rfl⟩
        · exact h3 d hd
      · simpa using h4

/-- The product loop succeeds whenever every line's product id resolves,
regardless of the quantities. -/
theorem procesarProductos_ok_of_found (db : DB) :
    ∀ (items : List ItemPedido) (acc : List DetalleProducto) (t0 : ℚ),
    (∀ i ∈ items, (findProducto db i.producto_id).isSome) →
    ∃ ds t, procesarProductos db items acc t0 = .ok (ds, t) := by
  intro items
  induction items with
  | nil => intro acc t0 _; exact ⟨acc, t0, rfl⟩
  | cons item rest ih =>
    intro acc t0 hall
    have hi : (findProducto db item.producto_id).isSome :=
      hall item (List.mem_cons_self _ _)
    cases hf : findProducto db item.producto_id with
    | none => rw [hf] at hi; simp at hi
    | some producto =>
      obtain ⟨ds, t, hds⟩ := ih (acc ++ [(⟨item.producto_id, producto.nombre,
          item.cantidad, producto.precio,
          producto.precio * (item.cantidad : ℚ)⟩ : DetalleProducto)])
        (t0 + producto.precio * (item.cantidad : ℚ))
        (fun i hi => hall i (List.mem_cons_of_mem _ hi))
      refine ⟨ds, t, ?_⟩
      simp only [procesarProductos, hf]
      exact hds

/-- The product loop short-circuits at the first line whose product id is
missing, returning the 404 that names that id. -/
theorem procesarProductos_first_missing (db : DB) :
    ∀ (l1 : List ItemPedido) (m : ItemPedido) (l2 : List ItemPedido)
      (acc : List DetalleProducto) (t0 : ℚ),
    (∀ i ∈ l1, (findProducto db i.producto_id).isSome) →
    findProducto db m.producto_id = none →
    procesarProductos db (l1 ++ m :: l2) acc t0 =
      .error ⟨404, "Producto " ++ m.producto_id ++ " no encontrado"⟩ := by
  intro l1
  induction l1 with
  | nil =>
    intro m l2 acc t0 _ hm
    simp only [List.nil_append, procesarProductos, hm]
  | cons x xs ih =>
    intro m l2 acc t0 hall hm
    have hx : (findProducto db x.producto_id).isSome :=
      hall x (List.mem_cons_self _ _)
    cases hf : findProducto db x.producto_id with
    | none => rw [hf] at hx; simp at hx
    | some producto =>
      simp only [List.cons_append, procesarProductos, hf]
      exact ih m l2 _ _ (fun i hi => hall i (List.mem_cons_of_mem _ hi)) hm

/-- Every list with an element failing the boolean predicate splits at the
first such element. -/
theorem exists_first_failing {α : Type} (p : α → Bool) :
    ∀ (l : List α), (∃ x ∈ l, p x = false) →
    ∃ l1 m l2, l = l1 ++ m :: l2 ∧ (∀ y ∈ l1, p y = true) ∧ p m = false := by
  intro l
  induction l with
  | nil => intro h; simp at h
  | cons a l ih =>
    intro h
    cases hp : p a with
    | false => exact ⟨[], a, l, rfl, by simp, hp⟩
    | true =>
      have hl : ∃ x ∈ l, p x = false := by
        obtain ⟨x, hx, hpx⟩ := h
        rcases List.mem_cons.1 hx with rfl | hx
        · rw [hp] at hpx; exact absurd hpx (by simp)
        · exact ⟨x, hx, hpx⟩
      obtain ⟨l1, m, l2, rfl, h1, h2⟩ := ih hl
      refine ⟨a :: l1, m, l2, rfl, ?_, h2⟩
      intro y hy
      rcases List.mem_cons.1 hy with rfl | hy
      · exact hp
      · exact h1 y hy

/-- A successful `find?` splits its list at the first matching element. -/
theorem find?_eq_some_decomp {α : Type} (p : α → Bool) :
    ∀ (l : List α) (x : α), l.find? p = some x →
    ∃ l1 l2, l = l1 ++ x :: l2 ∧ (∀ y ∈ l1, p y = false) ∧ p x = true := by
  intro l
  induction l with
  | nil => intro x h; simp at h
  | cons a l ih =>
    intro x h
    cases hp : p a with
    | true =>
      rw [List.find?_cons_of_pos _ hp] at h
      obtain rfl := Option.some.inj h
      exact ⟨[], l, rfl, by simp, hp⟩
    | false =>
      rw [List.find?_cons_of_neg _ (by simp [hp])] at h
      obtain ⟨l1, l2, rfl, h1, h2⟩ := ih x h
      refine ⟨a :: l1, l2, rfl, ?_, h2⟩
      intro y hy
      rcases List.mem_cons.1 hy with rfl | hy
      · exact hp
      · exact h1 y hy

/-- The single-field status update preserves every field other than
`estado` of every record (pointwise, in order). -/
theorem updateOneEstado_map_sinEstado (pid e : String) :
    ∀ (l : List Pedido), (updateOneEstado l pid e).map sinEstado = l.map sinEstado := by
  intro l
  induction l with
  | nil => rfl
  | cons p ps ih =>
    cases hp : p.id == pid with
    | true => simp [updateOneEstado, hp, sinEstado]
    | false => simp [updateOneEstado, hp, ih]

/-- After the status update, the first record matching the id is the old
record with only `estado` overwritten. -/
theorem updateOneEstado_find? (pid e : String) :
    ∀ (l : List Pedido) (p : Pedido),
    l.find? (fun q => q.id == pid) = some p →
    (updateOneEstado l pid e).find? (fun q => q.id == pid) = some { p with estado := e } := by
  intro l
  induction l with
  | nil => intro p h; simp at h
  | cons q qs ih =>
    intro p h
    cases hq : q.id == pid with
    | true =>
      simp only [List.find?_cons, hq] at h
      obtain rfl := Option.some.inj h
      simp [updateOneEstado, List.find?_cons, hq]
    | false =>
      simp only [List.find?_cons, hq] at h
      simp only [updateOneEstado, hq, Bool.false_eq_true, if_false]
      simp only [List.find?_cons, hq]
      exact ih p h

/-- Action of the customer `$set` update on the decomposition of the
collection at the first matching record. -/
theorem updateOneCliente_append :
    ∀ (l1 : List Cliente) (x : Cliente) (l2 : List Cliente) (cid : String)
      (c : ClienteCreate),
    (∀ y ∈ l1, (y.id == cid) = false) → (x.id == cid) = true →
    updateOneCliente (l1 ++ x :: l2) cid c =
      l1 ++ { x with nombre := c.nombre, telefono := c.telefono,
                     email := c.email, direccion := c.direccion } :: l2 := by
  intro l1
  induction l1 with
  | nil => intro x l2 cid c _ hx; simp [updateOneCliente, hx]
  | cons a l ih =>
    intro x l2 cid c hall hx
    have ha : (a.id == cid) = false := hall a (List.mem_cons_self _ _)
    simp only [List.cons_append, updateOneCliente, ha, Bool.false_eq_true, if_false]
    exact congrArg (a :: ·)
      (ih x l2 cid c (fun y hy => hall y (List.mem_cons_of_mem _ hy)) hx)

/-- The product `$set` update never touches the customer or order
collections, and the customer `$set` update never touches the product or
order collections (they rewrite one collection each by construction). -/
theorem actualizar_frame (db : DB) (producto_id cliente_id : String)
    (p : ProductoCreate) (c : ClienteCreate) :
    (actualizar_producto db producto_id p).1.clientes = db.clientes
    ∧ (actualizar_producto db producto_id p).1.pedidos = db.pedidos
    ∧ (actualizar_cliente db cliente_id c).1.productos = db.productos
    ∧ (actualizar_cliente db cliente_id c).1.pedidos = db.pedidos := by
  refine ⟨?_, ?_, ?_, ?_⟩ <;>
  · first
    | (unfold actualizar_producto
       cases hf : findProducto db producto_id with
       | none => simp [hf]
       | some x =>
         simp only [hf]
         cases hf2 : findProducto
             { db with productos := updateOneProducto db.productos producto_id p }
             producto_id with
         | none => simp [hf2]
         | some y => simp [hf2])
    | (unfold actualizar_cliente
       cases hf : findCliente db cliente_id with
       | none => simp [hf]
       | some x =>
         simp only [hf]
         cases hf2 : findCliente
             { db with clientes := updateOneCliente db.clientes cliente_id c }
             cliente_id with
         | none => simp [hf2]
         | some y => simp [hf2])

/-! ## Concrete sample data (used by witnesses and counterexamples) -/

/-- Sample customer (the end-to-end scenario of the spec). -/
def clienteAna : Cliente :=
  { id := "cli-1", nombre := "Ana", telefono := "555",
    email := none, direccion := none, fecha_registro := 0 }

/-- Sample product priced 3.00. -/
def productoPan : Producto :=
  { id := "prod-1", nombre := "Pan", precio := 3,
    categoria := "Pan", descripcion := none, disponible := true }

/-- Sample product priced 5.50. -/
def productoTarta : Producto :=
  { id := "prod-2", nombre := "Tarta", precio := (11 : ℚ) / 2,
    categoria := "Pasteleria", descripcion := none, disponible := true }

/-- Sample store: one customer, two products, no orders. -/
def dbEjemplo : DB :=
  { clientes := [clienteAna], productos := [productoPan, productoTarta], pedidos := [] }

/-- Sample compose request: quantities 2 and 1 over the two products. -/
def reqEjemplo : PedidoCreate :=
  { cliente_id := "cli-1", fecha_entrega_estimada := "2025-01-15",
    productos := [⟨"prod-1", 2⟩, ⟨"prod-2", 1⟩] }

/-! ## Claims -/

/-- Claim C1: for every successfully composed order with lines L1..Ln, the
persisted order's total equals the sum over i of quantity × unit price,
each line's stored subtotal equals its quantity × unit price, and the unit
price is the referenced product's price in the store at composition time. -/
theorem claim_C1 (db : DB) (newId : String) (now : Nat) (req : PedidoCreate)
    (db' : DB) (res : Pedido)
    (h : crear_pedido db newId now req = (db', .ok res)) :
    db'.pedidos = db.pedidos ++ [res]
    ∧ res.total = (res.productos.map (fun d => (d.cantidad : ℚ) * d.precio_unitario)).sum
    ∧ ∀ d ∈ res.productos,
        d.subtotal = (d.cantidad : ℚ) * d.precio_unitario
        ∧ ∃ p, findProducto db d.producto_id = some p ∧ d.precio_unitario = p.precio := by
  cases hc : findCliente db req.cliente_id with
  | none => simp only [crear_pedido, hc] at h; simp at h
  | some cliente =>
    cases hd : strptime_Ymd req.fecha_entrega_estimada with
    | none => simp only [crear_pedido, hc, hd] at h; simp at h
    | some fecha =>
      cases hp : procesarProductos db req.productos [] 0 with
      | error e => simp only [crear_pedido, hc, hd, hp] at h; simp at h
      | ok pr =>
        obtain ⟨ds, t⟩ := pr
        simp only [crear_pedido, hc, hd, hp, Prod.mk.injEq, Except.ok.injEq] at h
        obtain ⟨hdb, hres⟩ := h
        obtain ⟨nuevos, h1, h2, h3, h4⟩ :=
          procesarProductos_ok_spec db req.productos [] 0 ds t hp
        rw [List.nil_append] at h1
        subst h1
        subst hres
        subst hdb
        refine ⟨rfl, ?_, ?_⟩
        · simpa using h2
        · intro d hd2
          obtain ⟨hsub, p, hp1, hp2, _⟩ := h3 d hd2
          exact ⟨hsub, p, hp1, hp2⟩

/-- Expected persisted order of the end-to-end sample scenario. -/
def pedidoEjemplo : Pedido :=
  ⟨"ped-1", "cli-1", "Ana", 7, (2025, 1, 15), "pendiente",
   [⟨"prod-1", "Pan", 2, 3, 6⟩, ⟨"prod-2", "Tarta", 1, (11 : ℚ) / 2, (11 : ℚ) / 2⟩],
   (23 : ℚ) / 2⟩

/-- Witness for C1: the end-to-end scenario — customer Ana, products
priced 3.00 and 5.50, quantities 2 and 1 — composes an order whose stored
lines carry subtotals 6.00 and 5.50 and whose total is 11.50, and the
claim theorem applies to it. -/
theorem claim_C1_witness :
    ∃ db' res,
      crear_pedido dbEjemplo "ped-1" 7 reqEjemplo = (db', .ok res)
      ∧ res.total = (23 : ℚ) / 2
      ∧ (res.productos.map (fun d => d.subtotal)) = [6, (11 : ℚ) / 2]
      ∧ db'.pedidos = dbEjemplo.pedidos ++ [res]
      ∧ res.total = (res.productos.map (fun d => (d.cantidad : ℚ) * d.precio_unitario)).sum := by
  have h : crear_pedido dbEjemplo "ped-1" 7 reqEjemplo =
      (⟨[clienteAna], [productoPan, productoTarta], [pedidoEjemplo]⟩, .ok pedidoEjemplo) := by
    have hdate : strptime_Ymd "2025-01-15" = some (2025, 1, 15) := by decide
    simp [crear_pedido, procesarProductos, findCliente, findProducto,
          dbEjemplo, reqEjemplo, clienteAna, productoPan, productoTarta,
          pedidoEjemplo, hdate, List.find?_cons]
    norm_num
  refine ⟨_, _, h, ?_, ?_, (claim_C1 _ _ _ _ _ _ h).1, (claim_C1 _ _ _ _ _ _ h).2.1⟩
  · norm_num [pedidoEjemplo]
  · norm_num [pedidoEjemplo]

/-- The customer-not-found detail can never coincide with a product-not-found
detail, whatever the product id (the lengths already differ). -/
theorem detalle_cliente_ne_producto (pid : String) :
    ("Cliente no encontrado" : String) ≠ "Producto " ++ pid ++ " no encontrado" := by
  intro h
  have hl := congrArg String.length h
  rw [String.length_append, String.length_append,
      show ("Cliente no encontrado" : String).length = 21 from rfl,
      show ("Producto " : String).length = 9 from rfl,
      show (" no encontrado" : String).length = 14 from rfl] at hl
  omega

/-- Claim C2: compose fails with 404 `Cliente no encontrado` when the
customer id is unknown; with 400 `Formato de fecha inválido` when the
customer exists but the delivery date text does not parse as `YYYY-MM-DD`;
with a 404 naming a missing product id when customer and date are fine but
some line's product id is absent; and the three errors are pairwise
distinguishable at the interface. -/
theorem claim_C2 (db : DB) (newId : String) (now : Nat) (req : PedidoCreate) :
    (findCliente db req.cliente_id = none →
      crear_pedido db newId now req = (db, .error ⟨404, "Cliente no encontrado"⟩))
    ∧ ((findCliente db req.cliente_id).isSome →
       strptime_Ymd req.fecha_entrega_estimada = none →
       crear_pedido db newId now req =
         (db, .error ⟨400, "Formato de fecha inválido. Use YYYY-MM-DD"⟩))
    ∧ ((findCliente db req.cliente_id).isSome →
       (strptime_Ymd req.fecha_entrega_estimada).isSome →
       (∃ i ∈ req.productos, findProducto db i.producto_id = none) →
       ∃ pid, findProducto db pid = none
         ∧ pid ∈ req.productos.map (fun i => i.producto_id)
         ∧ crear_pedido db newId now req =
             (db, .error ⟨404, "Producto " ++ pid ++ " no encontrado"⟩))
    ∧ (∀ pid : String,
        (⟨404, "Cliente no encontrado"⟩ : HTTPException) ≠
          ⟨400, "Formato de fecha inválido. Use YYYY-MM-DD"⟩
        ∧ (⟨404, "Cliente no encontrado"⟩ : HTTPException) ≠
            ⟨404, "Producto " ++ pid ++ " no encontrado"⟩
        ∧ (⟨400, "Formato de fecha inválido. Use YYYY-MM-DD"⟩ : HTTPException) ≠
            ⟨404, "Producto " ++ pid ++ " no encontrado"⟩) := by
  refine ⟨?_, ?_, ?_, ?_⟩
  · intro hc
    simp [crear_pedido, hc]
  · intro hc hd
    cases hcs : findCliente db req.cliente_id with
    | none => rw [hcs] at hc; simp at hc
    | some cliente => simp [crear_pedido, hcs, hd]
  · intro hc hd hmiss
    cases hcs : findCliente db req.cliente_id with
    | none => rw [hcs] at hc; simp at hc
    | some cliente =>
      cases hds : strptime_Ymd req.fecha_entrega_estimada with
      | none => rw [hds] at hd; simp at hd
      | some fecha =>
        have hmiss2 : ∃ i ∈ req.productos,
            ((findProducto db i.producto_id).isSome : Bool) = false := by
          obtain ⟨i, hi, hnone⟩ := hmiss
          exact ⟨i, hi, by simp [hnone]⟩
        obtain ⟨l1, m, l2, hsplit, hall, hm⟩ :=
          exists_first_failing (fun i => (findProducto db i.producto_id).isSome)
            req.productos hmiss2
        have hmn : findProducto db m.producto_id = none := by
          cases hmc : findProducto db m.producto_id with
          | none => rfl
          | some x => rw [hmc] at hm; simp at hm
        refine ⟨m.producto_id, hmn, ?_, ?_⟩
        · rw [hsplit]; simp
        · have hloop := procesarProductos_first_missing db l1 m l2 [] 0 hall hmn
          rw [← hsplit] at hloop
          simp [crear_pedido, hcs, hds, hloop]
  · intro pid
    refine ⟨?_, ?_, ?_⟩
    · intro h
      have := congrArg HTTPException.status_code h
      simp at this
    · intro h
      exact detalle_cliente_ne_producto pid (congrArg HTTPException.detail h)
    · intro h
      have := congrArg HTTPException.status_code h
      simp at this

/-- Witness for C2: concrete instances of the three failures on the sample
store — unknown customer id, malformed date `2025-13-40`, and a line whose
product id `prod-404` is absent — each produced by the claim theorem. -/
theorem claim_C2_witness :
    crear_pedido dbEjemplo "ped-1" 7 ⟨"cli-404", "2025-01-15", []⟩ =
      (dbEjemplo, .error ⟨404, "Cliente no encontrado"⟩)
    ∧ crear_pedido dbEjemplo "ped-1" 7 ⟨"cli-1", "2025-13-40", []⟩ =
      (dbEjemplo, .error ⟨400, "Formato de fecha inválido. Use YYYY-MM-DD"⟩)
    ∧ ∃ pid, findProducto dbEjemplo pid = none
        ∧ crear_pedido dbEjemplo "ped-1" 7
            ⟨"cli-1", "2025-01-15", [⟨"prod-1", 1⟩, ⟨"prod-404", 2⟩]⟩ =
          (dbEjemplo, .error ⟨404, "Producto " ++ pid ++ " no encontrado"⟩) := by
  refine ⟨(claim_C2 dbEjemplo "ped-1" 7 _).1 (by decide),
          (claim_C2 dbEjemplo "ped-1" 7 _).2.1 (by decide) (by decide), ?_⟩
  obtain ⟨pid, h1, _, h3⟩ :=
    (claim_C2 dbEjemplo "ped-1" 7
        ⟨"cli-1", "2025-01-15", [⟨"prod-1", 1⟩, ⟨"prod-404", 2⟩]⟩).2.2.1
      (by decide) (by decide) ⟨⟨"prod-404", 2⟩, by decide, by decide⟩
  exact ⟨pid, h1, h3⟩

/-- Shape of a successful compose: only the order collection changes, by a
single append of the returned order, whose id is the freshly drawn one. -/
theorem crear_pedido_ok_shape (db : DB) (newId : String) (now : Nat)
    (req : PedidoCreate) (db' : DB) (res : Pedido)
    (h : crear_pedido db newId now req = (db', .ok res)) :
    db'.clientes = db.clientes ∧ db'.productos = db.productos
    ∧ db'.pedidos = db.pedidos ++ [res] ∧ res.id = newId := by
  cases hc : findCliente db req.cliente_id with
  | none => simp only [crear_pedido, hc] at h; simp at h
  | some cliente =>
    cases hd : strptime_Ymd req.fecha_entrega_estimada with
    | none => simp only [crear_pedido, hc, hd] at h; simp at h
    | some fecha =>
      cases hp : procesarProductos db req.productos [] 0 with
      | error e => simp only [crear_pedido, hc, hd, hp] at h; simp at h
      | ok pr =>
        obtain ⟨ds, t⟩ := pr
        simp only [crear_pedido, hc, hd, hp, Prod.mk.injEq, Except.ok.injEq] at h
        obtain ⟨hdb, hres⟩ := h
        subst hres
        subst hdb
        exact ⟨rfl, rfl, rfl, rfl⟩

/-- Claim C3: compose writes the order collection exactly once on success
(and touches nothing else), writes nothing on any failure, and a request
whose lines contain a missing product id — even among otherwise-valid
lines — fails with the 404 naming the first missing id in input order,
leaving the store unchanged. -/
theorem claim_C3 (db : DB) (newId : String) (now : Nat) (req : PedidoCreate) :
    (∀ db' res, crear_pedido db newId now req = (db', .ok res) →
        db'.clientes = db.clientes ∧ db'.productos = db.productos
        ∧ db'.pedidos = db.pedidos ++ [res])
    ∧ (∀ db' e, crear_pedido db newId now req = (db', .error e) → db' = db)
    ∧ (∀ l1 m l2, req.productos = l1 ++ m :: l2 →
        (∀ i ∈ l1, (findProducto db i.producto_id).isSome) →
        findProducto db m.producto_id = none →
        (findCliente db req.cliente_id).isSome →
        (strptime_Ymd req.fecha_entrega_estimada).isSome →
        crear_pedido db newId now req =
          (db, .error ⟨404, "Producto " ++ m.producto_id ++ " no encontrado"⟩)) := by
  refine ⟨?_, ?_, ?_⟩
  · intro db' res h
    obtain ⟨h1, h2, h3, _⟩ := crear_pedido_ok_shape db newId now req db' res h
    exact ⟨h1, h2, h3⟩
  · intro db' e h
    cases hc : findCliente db req.cliente_id with
    | none => simp only [crear_pedido, hc, Prod.mk.injEq] at h; exact h.1.symm
    | some cliente =>
      cases hd : strptime_Ymd req.fecha_entrega_estimada with
      | none => simp only [crear_pedido, hc, hd, Prod.mk.injEq] at h; exact h.1.symm
      | some fecha =>
        cases hp : procesarProductos db req.productos [] 0 with
        | error e2 =>
          simp only [crear_pedido, hc, hd, hp, Prod.mk.injEq] at h
          exact h.1.symm
        | ok pr =>
          obtain ⟨ds, t⟩ := pr
          simp only [crear_pedido, hc, hd, hp, Prod.mk.injEq] at h
          simp at h
  · intro l1 m l2 hsplit hall hmn hc hd
    cases hcs : findCliente db req.cliente_id with
    | none => rw [hcs] at hc; simp at hc
    | some cliente =>
      cases hds : strptime_Ymd req.fecha_entrega_estimada with
      | none => rw [hds] at hd; simp at hd
      | some fecha =>
        have hloop := procesarProductos_first_missing db l1 m l2 [] 0 hall hmn
        rw [← hsplit] at hloop
        simp [crear_pedido, hcs, hds, hloop]

/-- Witness for C3: on the sample store, the request with lines
`[prod-1 (valid), prod-404 (missing), prod-2 (valid)]` fails with the 404
naming `prod-404` and the store is returned unchanged — via the claim
theorem applied at that decomposition. -/
theorem claim_C3_witness :
    crear_pedido dbEjemplo "ped-1" 7
        ⟨"cli-1", "2025-01-15", [⟨"prod-1", 1⟩, ⟨"prod-404", 2⟩, ⟨"prod-2", 1⟩]⟩ =
      (dbEjemplo, .error ⟨404, "Producto prod-404 no encontrado"⟩) :=
  (claim_C3 dbEjemplo "ped-1" 7
      ⟨"cli-1", "2025-01-15", [⟨"prod-1", 1⟩, ⟨"prod-404", 2⟩, ⟨"prod-2", 1⟩]⟩).2.2
    [⟨"prod-1", 1⟩] ⟨"prod-404", 2⟩ [⟨"prod-2", 1⟩] rfl
    (by decide) (by decide) (by decide) (by decide)

/-- Claim C10: compose validates no quantity: whenever the customer, the
date and every line's product id resolve, the request succeeds for
arbitrary integer quantities (zero and negative included), each persisted
line's subtotal is price × quantity, and the total sums these subtotals. -/
theorem claim_C10 (db : DB) (newId : String) (now : Nat) (req : PedidoCreate)
    (hc : (findCliente db req.cliente_id).isSome)
    (hd : (strptime_Ymd req.fecha_entrega_estimada).isSome)
    (hp : ∀ i ∈ req.productos, (findProducto db i.producto_id).isSome) :
    ∃ db' res, crear_pedido db newId now req = (db', .ok res)
      ∧ res.productos.map (fun d => (d.producto_id, d.cantidad))
          = req.productos.map (fun i => (i.producto_id, i.cantidad))
      ∧ (∀ d ∈ res.productos, d.subtotal = d.precio_unitario * (d.cantidad : ℚ))
      ∧ res.total =
          (res.productos.map (fun d => (d.cantidad : ℚ) * d.precio_unitario)).sum := by
  cases hcs : findCliente db req.cliente_id with
  | none => rw [hcs] at hc; simp at hc
  | some cliente =>
    cases hds : strptime_Ymd req.fecha_entrega_estimada with
    | none => rw [hds] at hd; simp at hd
    | some fecha =>
      obtain ⟨ds, t, hloop⟩ := procesarProductos_ok_of_found db req.productos [] 0 hp
      obtain ⟨nuevos, h1, h2, h3, h4⟩ :=
        procesarProductos_ok_spec db req.productos [] 0 ds t hloop
      rw [List.nil_append] at h1
      subst h1
      refine ⟨{ db with pedidos := db.pedidos ++
          [⟨newId, req.cliente_id, cliente.nombre, now, fecha, "pendiente", ds, t⟩] },
        ⟨newId, req.cliente_id, cliente.nombre, now, fecha, "pendiente", ds, t⟩,
        ?_, ?_, ?_, ?_⟩
      · simp [crear_pedido, hcs, hds, hloop]
      · simpa using h4
      · intro d hd2
        rw [(h3 d hd2).1]
        exact mul_comm _ _
      · simpa using h2

/-- The compose request with a negative and a zero quantity. -/
def reqNegativo : PedidoCreate :=
  { cliente_id := "cli-1", fecha_entrega_estimada := "2025-01-15",
    productos := [⟨"prod-1", -3⟩, ⟨"prod-2", 0⟩] }

/-- The order the reference behavior persists for `reqNegativo`: subtotal
−9 on the first line, 0 on the second, total −9. -/
def pedidoNegativo : Pedido :=
  ⟨"ped-neg", "cli-1", "Ana", 7, (2025, 1, 15), "pendiente",
   [⟨"prod-1", "Pan", -3, 3, -9⟩, ⟨"prod-2", "Tarta", 0, (11 : ℚ) / 2, 0⟩],
   -9⟩

/-- Witness for C10: the quantities −3 and 0 are accepted; the stored
subtotals are −9 and 0 and the persisted total is −9. -/
theorem claim_C10_witness :
    (∃ db' res, crear_pedido dbEjemplo "ped-neg" 7 reqNegativo = (db', .ok res)
      ∧ res.productos.map (fun d => (d.producto_id, d.cantidad))
          = reqNegativo.productos.map (fun i => (i.producto_id, i.cantidad))
      ∧ (∀ d ∈ res.productos, d.subtotal = d.precio_unitario * (d.cantidad : ℚ))
      ∧ res.total =
          (res.productos.map (fun d => (d.cantidad : ℚ) * d.precio_unitario)).sum)
    ∧ (crear_pedido dbEjemplo "ped-neg" 7 reqNegativo).2 = .ok pedidoNegativo := by
  refine ⟨claim_C10 dbEjemplo "ped-neg" 7 reqNegativo (by decide) (by decide) (by decide), ?_⟩
  have hdate : strptime_Ymd "2025-01-15" = some (2025, 1, 15) := by decide
  simp [crear_pedido, procesarProductos, findCliente, findProducto,
        dbEjemplo, reqNegativo, clienteAna, productoPan, productoTarta,
        pedidoNegativo, hdate, List.find?_cons]
  norm_num

/-- The compose request with an empty lines list. -/
def reqVacio : PedidoCreate :=
  { cliente_id := "cli-1", fecha_entrega_estimada := "2025-01-15", productos := [] }

/-- Counterexample to C7 as stated: on the sample store, composing with an
empty lines list succeeds and persists an order with zero lines (the
order count rises from 0 to 1), so compose does accept empty orders. -/
theorem claim_C7_counterexample :
    (crear_pedido dbEjemplo "ped-vacio" 7 reqVacio).2 =
      .ok ⟨"ped-vacio", "cli-1", "Ana", 7, (2025, 1, 15), "pendiente", [], 0⟩
    ∧ dbEjemplo.pedidos.length = 0
    ∧ (crear_pedido dbEjemplo "ped-vacio" 7 reqVacio).1.pedidos.length = 1 := by
  have hdate : strptime_Ymd "2025-01-15" = some (2025, 1, 15) := by decide
  refine ⟨?_, rfl, ?_⟩ <;>
    simp [crear_pedido, procesarProductos, findCliente, dbEjemplo, reqVacio,
          clienteAna, hdate, List.find?_cons]

/-- Claim C7 as amended: compose performs no non-emptiness validation — a
request whose lines list is empty, naming an existing customer and a
well-formed date, succeeds and persists a single order with an empty line
sequence and total 0. -/
theorem claim_C7_amended (db : DB) (newId : String) (now : Nat) (req : PedidoCreate)
    (hc : (findCliente db req.cliente_id).isSome)
    (hd : (strptime_Ymd req.fecha_entrega_estimada).isSome)
    (he : req.productos = []) :
    ∃ res, crear_pedido db newId now req =
        ({ db with pedidos := db.pedidos ++ [res] }, .ok res)
      ∧ res.productos = [] ∧ res.total = 0 := by
  cases hcs : findCliente db req.cliente_id with
  | none => rw [hcs] at hc; simp at hc
  | some cliente =>
    cases hds : strptime_Ymd req.fecha_entrega_estimada with
    | none => rw [hds] at hd; simp at hd
    | some fecha =>
      refine ⟨⟨newId, req.cliente_id, cliente.nombre, now, fecha, "pendiente", [], 0⟩,
              ?_, rfl, rfl⟩
      simp [crear_pedido, procesarProductos, hcs, hds, he]

/-- Witness for the amended C7 at the sample store and `reqVacio`. -/
theorem claim_C7_amended_witness :
    ∃ res, crear_pedido dbEjemplo "ped-vacio" 7 reqVacio =
        ({ dbEjemplo with pedidos := dbEjemplo.pedidos ++ [res] }, .ok res)
      ∧ res.productos = [] ∧ res.total = 0 :=
  claim_C7_amended dbEjemplo "ped-vacio" 7 reqVacio (by decide) (by decide) rfl

/-- Summing the totals of the completed orders equals the conditional sum
over all orders in which non-completed statuses contribute 0. -/
theorem sum_completados_eq_sum_ite (l : List Pedido) :
    ((l.filter (fun p => p.estado == "completado")).map Pedido.total).sum
      = (l.map (fun p => if p.estado = "completado" then p.total else 0)).sum := by
  induction l with
  | nil => rfl
  | cons p ps ih =>
    by_cases hp : p.estado = "completado" <;>
      simp [List.filter_cons, hp, ih]

/-- Claim C4 as amended: the six counters are the exact collection and
status counts for every store state, unconditionally; and whenever at
most 1000 orders are completed, so that the capped revenue query sees
them all, reported revenue is exactly the sum of `total` over completed
orders, with orders in any other status contributing nothing. -/
theorem claim_C4_amended (db : DB) :
    (obtener_estadisticas db).total_clientes = db.clientes.length
    ∧ (obtener_estadisticas db).total_productos = db.productos.length
    ∧ (obtener_estadisticas db).total_pedidos = db.pedidos.length
    ∧ (obtener_estadisticas db).pedidos_pendientes
        = db.pedidos.countP (fun p => p.estado == "pendiente")
    ∧ (obtener_estadisticas db).pedidos_en_proceso
        = db.pedidos.countP (fun p => p.estado == "en_proceso")
    ∧ (obtener_estadisticas db).pedidos_completados
        = db.pedidos.countP (fun p => p.estado == "completado")
    ∧ ((db.pedidos.filter (fun p => p.estado == "completado")).length ≤ 1000 →
        (obtener_estadisticas db).ingresos_totales
          = (db.pedidos.map
              (fun p => if p.estado = "completado" then p.total else 0)).sum) := by
  refine ⟨rfl, rfl, rfl, ?_, ?_, ?_, ?_⟩
  · exact (List.countP_eq_length_filter _ _).symm
  · exact (List.countP_eq_length_filter _ _).symm
  · exact (List.countP_eq_length_filter _ _).symm
  · intro h
    show (((db.pedidos.filter (fun p => p.estado == "completado")).take 1000).map
        Pedido.total).sum = _
    rw [List.take_of_length_le h, sum_completados_eq_sum_ite]

/-- The five sample orders of the aggregation scenario: two pending, one
in progress, two completed with totals 10 and 5. -/
def pedidosCinco : List Pedido :=
  [⟨"o1", "c", "n", 0, (2025, 1, 1), "pendiente", [], 0⟩,
   ⟨"o2", "c", "n", 0, (2025, 1, 1), "pendiente", [], 0⟩,
   ⟨"o3", "c", "n", 0, (2025, 1, 1), "en_proceso", [], 0⟩,
   ⟨"o4", "c", "n", 0, (2025, 1, 1), "completado", [], 10⟩,
   ⟨"o5", "c", "n", 0, (2025, 1, 1), "completado", [], 5⟩]

/-- Store holding exactly the five sample orders. -/
def dbCinco : DB := ⟨[], [], pedidosCinco⟩

/-- Witness for the amended C4: on the five-order scenario the report is
total_pedidos 5, pendientes 2, en_proceso 1, completados 2, ingresos 15. -/
theorem claim_C4_amended_witness :
    ((obtener_estadisticas dbCinco).total_pedidos = dbCinco.pedidos.length
      ∧ (obtener_estadisticas dbCinco).pedidos_pendientes
          = dbCinco.pedidos.countP (fun p => p.estado == "pendiente")
      ∧ (obtener_estadisticas dbCinco).ingresos_totales
          = (dbCinco.pedidos.map
              (fun p => if p.estado = "completado" then p.total else 0)).sum)
    ∧ (obtener_estadisticas dbCinco).total_pedidos = 5
    ∧ (obtener_estadisticas dbCinco).pedidos_pendientes = 2
    ∧ (obtener_estadisticas dbCinco).pedidos_en_proceso = 1
    ∧ (obtener_estadisticas dbCinco).pedidos_completados = 2
    ∧ (obtener_estadisticas dbCinco).ingresos_totales = 15 := by
  have h := claim_C4_amended dbCinco
  refine ⟨⟨h.2.2.1, h.2.2.2.1, h.2.2.2.2.2.2 (by decide)⟩,
          by decide, by decide, by decide, by decide, ?_⟩
  rw [h.2.2.2.2.2.2 (by decide)]
  norm_num [dbCinco, pedidosCinco]

/-- A completed order with total 1, used to exceed the revenue query cap. -/
def pedidoCompletadoUno : Pedido :=
  ⟨"done", "c", "n", 0, (2025, 1, 1), "completado", [], 1⟩

/-- A store with 1001 completed orders of total 1 each. -/
def dbGrande : DB := ⟨[], [], List.replicate 1001 pedidoCompletadoUno⟩

/-- Counterexample to C4 as stated: with 1001 completed orders of total 1,
the revenue query — capped at 1000 documents — reports 1000, not the sum
1001 over all completed orders, while the completed count is 1001. -/
theorem claim_C4_counterexample :
    (obtener_estadisticas dbGrande).pedidos_completados = 1001
    ∧ (obtener_estadisticas dbGrande).ingresos_totales = 1000
    ∧ ((dbGrande.pedidos.filter (fun p => p.estado == "completado")).map Pedido.total).sum
        = 1001
    ∧ (obtener_estadisticas dbGrande).ingresos_totales ≠
        ((dbGrande.pedidos.filter (fun p => p.estado == "completado")).map Pedido.total).sum := by
  have hfilter : dbGrande.pedidos.filter (fun p => p.estado == "completado")
      = List.replicate 1001 pedidoCompletadoUno := by
    show (List.replicate 1001 pedidoCompletadoUno).filter _ = _
    rw [List.filter_replicate_of_pos (by rfl)]
  have hsum : ∀ n : Nat, ((List.replicate n pedidoCompletadoUno).map Pedido.total).sum
      = (n : ℚ) := by
    intro n
    rw [List.map_replicate, List.sum_replicate, nsmul_eq_mul,
        show pedidoCompletadoUno.total = 1 from rfl, mul_one]
  have hing : (obtener_estadisticas dbGrande).ingresos_totales = 1000 := by
    show (((dbGrande.pedidos.filter (fun p => p.estado == "completado")).take 1000).map
        Pedido.total).sum = 1000
    rw [hfilter, List.take_replicate, show min 1000 1001 = 1000 from rfl, hsum]
    norm_num
  have hall : ((dbGrande.pedidos.filter (fun p => p.estado == "completado")).map
      Pedido.total).sum = 1001 := by
    rw [hfilter, hsum]; norm_num
  refine ⟨?_, hing, hall, ?_⟩
  · show (dbGrande.pedidos.filter (fun p => p.estado == "completado")).length = 1001
    rw [hfilter, List.length_replicate]
  · rw [hing, hall]; norm_num

/-- Claim C5: when the order exists, a status update to one of the four
recognized values acknowledges success and overwrites only the `estado`
field — every other field of every stored order, and the other two
collections, are unchanged, and the targeted order's status becomes the
new value; a status update to an unrecognized value fails with the 400
`Estado no válido` and the whole store is unchanged. -/
theorem claim_C5 (db : DB) (pid e : String)
    (hex : (findPedido db pid).isSome) :
    (estados_validos.contains e = true →
      (actualizar_estado_pedido db pid e).2 = .ok "Estado actualizado exitosamente"
      ∧ (actualizar_estado_pedido db pid e).1.clientes = db.clientes
      ∧ (actualizar_estado_pedido db pid e).1.productos = db.productos
      ∧ (actualizar_estado_pedido db pid e).1.pedidos.map sinEstado
          = db.pedidos.map sinEstado
      ∧ ∀ p, findPedido db pid = some p →
          findPedido (actualizar_estado_pedido db pid e).1 pid
            = some { p with estado := e })
    ∧ (estados_validos.contains e = false →
      actualizar_estado_pedido db pid e = (db, .error ⟨400, "Estado no válido"⟩)) := by
  cases hp : findPedido db pid with
  | none => rw [hp] at hex; simp at hex
  | some p0 =>
    constructor
    · intro hval
      have hmem : e ∈ estados_validos := by simpa using hval
      have hdb1 : (actualizar_estado_pedido db pid e).1
          = { db with pedidos := updateOneEstado db.pedidos pid e } := by
        simp [actualizar_estado_pedido, hp, hmem]
      have hdb2 : (actualizar_estado_pedido db pid e).2
          = .ok "Estado actualizado exitosamente" := by
        simp [actualizar_estado_pedido, hp, hmem]
      refine ⟨hdb2, ?_, ?_, ?_, ?_⟩
      · rw [hdb1]
      · rw [hdb1]
      · rw [hdb1]
        exact updateOneEstado_map_sinEstado pid e db.pedidos
      · intro p hp2
        obtain rfl := Option.some.inj hp2
        rw [hdb1]
        exact updateOneEstado_find? pid e db.pedidos p0 hp
    · intro hval
      simp only [actualizar_estado_pedido, hp, hval, Bool.false_eq_true, if_false]

/-- A stored pending order used by the status-update witnesses. -/
def pedidoUno : Pedido :=
  ⟨"ped-9", "cli-1", "Ana", 3, (2025, 2, 2), "pendiente", [], 0⟩

/-- A store holding one customer, one product and one pending order. -/
def dbPedidos : DB := ⟨[clienteAna], [productoPan], [pedidoUno]⟩

/-- Witness for C5: updating `ped-9` to `completado` succeeds, rewrites
only the status, and leaves all other fields intact; updating it to the
unrecognized `estado_falso` fails with 400 and changes nothing. -/
theorem claim_C5_witness :
    ((actualizar_estado_pedido dbPedidos "ped-9" "completado").2
        = .ok "Estado actualizado exitosamente"
      ∧ findPedido (actualizar_estado_pedido dbPedidos "ped-9" "completado").1 "ped-9"
          = some { pedidoUno with estado := "completado" }
      ∧ (actualizar_estado_pedido dbPedidos "ped-9" "completado").1.pedidos.map sinEstado
          = dbPedidos.pedidos.map sinEstado)
    ∧ actualizar_estado_pedido dbPedidos "ped-9" "estado_falso" =
        (dbPedidos, .error ⟨400, "Estado no válido"⟩) := by
  obtain ⟨ha, -, -, hmap, hfind⟩ :=
    (claim_C5 dbPedidos "ped-9" "completado" (by rfl)).1 (by decide)
  exact ⟨⟨ha, hfind pedidoUno rfl, hmap⟩,
         (claim_C5 dbPedidos "ped-9" "estado_falso" (by rfl)).2 (by decide)⟩

/-- Claim C9: the status update checks order existence before status
validity — for an absent order id it fails with the 404
`Pedido no encontrado` whatever the supplied status value, leaving the
store unchanged. -/
theorem claim_C9 (db : DB) (pid e : String)
    (h : findPedido db pid = none) :
    actualizar_estado_pedido db pid e = (db, .error ⟨404, "Pedido no encontrado"⟩) := by
  simp [actualizar_estado_pedido, h]

/-- Witness for C9: an unrecognized status on a missing order id yields
404, not 400. -/
theorem claim_C9_witness :
    actualizar_estado_pedido dbPedidos "no-such-id" "estado_falso" =
      (dbPedidos, .error ⟨404, "Pedido no encontrado"⟩)
    ∧ estados_validos.contains "estado_falso" = false :=
  ⟨claim_C9 dbPedidos "no-such-id" "estado_falso" (by rfl), by decide⟩

/-- Claim C8: updating an existing customer replaces exactly the four
request fields (name, phone, email, address) of the first matching record,
keeps its identifier and registration timestamp, and touches no other
record and no other collection; updating an absent id fails with the 404
`Cliente no encontrado` and changes nothing. -/
theorem claim_C8 (db : DB) (cid : String) (nuevo : ClienteCreate) :
    (findCliente db cid = none →
      actualizar_cliente db cid nuevo = (db, .error ⟨404, "Cliente no encontrado"⟩))
    ∧ (∀ c, findCliente db cid = some c →
        (actualizar_cliente db cid nuevo).1.productos = db.productos
        ∧ (actualizar_cliente db cid nuevo).1.pedidos = db.pedidos
        ∧ ∃ l1 l2,
            db.clientes = l1 ++ c :: l2
            ∧ (∀ y ∈ l1, (y.id == cid) = false)
            ∧ (actualizar_cliente db cid nuevo).1.clientes =
                l1 ++ { c with nombre := nuevo.nombre, telefono := nuevo.telefono,
                               email := nuevo.email, direccion := nuevo.direccion } :: l2) := by
  constructor
  · intro h
    simp [actualizar_cliente, h]
  · intro c hc
    have h1 : (actualizar_cliente db cid nuevo).1
        = { db with clientes := updateOneCliente db.clientes cid nuevo } := by
      simp only [actualizar_cliente, hc]
      cases hf2 : findCliente
          { db with clientes := updateOneCliente db.clientes cid nuevo } cid with
      | none => simp [hf2]
      | some y => simp [hf2]
    have hc2 : db.clientes.find? (fun (x : Cliente) => x.id == cid) = some c := hc
    obtain ⟨l1, l2, hsplit, hnone, hcid⟩ :=
      find?_eq_some_decomp (fun (x : Cliente) => x.id == cid) db.clientes c hc2
    refine ⟨by rw [h1], by rw [h1], l1, l2, hsplit, hnone, ?_⟩
    rw [h1]
    show updateOneCliente db.clientes cid nuevo = _
    rw [hsplit]
    exact updateOneCliente_append l1 c l2 cid nuevo hnone hcid

/-- The replacement data for the customer-update witness. -/
def nuevaAna : ClienteCreate :=
  ⟨"Ana Maria", "777", some "ana@example.com", none⟩

/-- Witness for C8: replacing the fields of `cli-1` keeps its id and its
registration timestamp, rewrites the four payload fields, leaves orders
untouched, and updating the absent `no-cliente` yields 404 and no change. -/
theorem claim_C8_witness :
    actualizar_cliente dbEjemplo "no-cliente" nuevaAna =
      (dbEjemplo, .error ⟨404, "Cliente no encontrado"⟩)
    ∧ (actualizar_cliente dbEjemplo "cli-1" nuevaAna).1.pedidos = dbEjemplo.pedidos
    ∧ (actualizar_cliente dbEjemplo "cli-1" nuevaAna).1.clientes =
        [⟨"cli-1", "Ana Maria", "777", some "ana@example.com", none, 0⟩] := by
  obtain ⟨-, hped, l1, l2, hsplit, -, hcl⟩ :=
    (claim_C8 dbEjemplo "cli-1" nuevaAna).2 clienteAna rfl
  refine ⟨(claim_C8 dbEjemplo "no-cliente" nuevaAna).1 rfl, hped, ?_⟩
  have hl1 : l1 = [] := by
    cases l1 with
    | nil => rfl
    | cons a as =>
      have : dbEjemplo.clientes.length = (a :: as ++ clienteAna :: l2).length :=
        congrArg List.length hsplit
      simp [dbEjemplo] at this
  subst hl1
  have hl2 : l2 = [] := by
    have := congrArg List.length hsplit
    simp [dbEjemplo] at this
    exact this
  subst hl2
  rw [hcl]
  rfl

/-- Claim C6: once an order is composed, later product or customer updates
touch only their own collection — the stored order list is unchanged, and
re-reading the freshly persisted order (whose new id is not taken by an
older order) returns exactly the snapshot captured at composition time,
per-line unit prices, product names, subtotals and customer name included. -/
theorem claim_C6 (db : DB) (newId : String) (now : Nat) (req : PedidoCreate)
    (db1 : DB) (res : Pedido) (pid cid : String)
    (pNuevo : ProductoCreate) (cNuevo : ClienteCreate)
    (hcr : crear_pedido db newId now req = (db1, .ok res))
    (hfresh : ∀ q ∈ db.pedidos, (q.id == newId) = false) :
    (actualizar_producto db1 pid pNuevo).1.pedidos = db1.pedidos
    ∧ (actualizar_cliente db1 cid cNuevo).1.pedidos = db1.pedidos
    ∧ obtener_pedido (actualizar_producto db1 pid pNuevo).1 res.id = .ok res
    ∧ obtener_pedido (actualizar_cliente db1 cid cNuevo).1 res.id = .ok res := by
  obtain ⟨hcl, hpr, hped, hid⟩ := crear_pedido_ok_shape db newId now req db1 res hcr
  have hframe := actualizar_frame db1 pid cid pNuevo cNuevo
  have hfind : findPedido db1 res.id = some res := by
    unfold findPedido
    rw [hped, List.find?_append]
    have hnone : db.pedidos.find? (fun q => q.id == res.id) = none := by
      rw [List.find?_eq_none]
      intro x hx
      rw [hid]
      simp [hfresh x hx]
    rw [hnone]
    simp [List.find?_cons]
  have hp2 : findPedido (actualizar_producto db1 pid pNuevo).1 res.id = some res := by
    show (actualizar_producto db1 pid pNuevo).1.pedidos.find? (fun q => q.id == res.id)
      = some res
    rw [hframe.2.1]
    exact hfind
  have hc2 : findPedido (actualizar_cliente db1 cid cNuevo).1 res.id = some res := by
    show (actualizar_cliente db1 cid cNuevo).1.pedidos.find? (fun q => q.id == res.id)
      = some res
    rw [hframe.2.2.2]
    exact hfind
  refine ⟨hframe.2.1, hframe.2.2.2, ?_, ?_⟩
  · simp [obtener_pedido, hp2]
  · simp [obtener_pedido, hc2]

/-- The store after the sample composition. -/
def dbTrasEjemplo : DB :=
  ⟨[clienteAna], [productoPan, productoTarta], [pedidoEjemplo]⟩

/-- Concrete evaluation of the sample composition. -/
theorem crear_pedido_ejemplo :
    crear_pedido dbEjemplo "ped-1" 7 reqEjemplo = (dbTrasEjemplo, .ok pedidoEjemplo) := by
  have hdate : strptime_Ymd "2025-01-15" = some (2025, 1, 15) := by decide
  simp [crear_pedido, procesarProductos, findCliente, findProducto,
        dbEjemplo, dbTrasEjemplo, reqEjemplo, clienteAna, productoPan, productoTarta,
        pedidoEjemplo, hdate, List.find?_cons]
  norm_num

/-- The price-change payload for the snapshot-isolation witness. -/
def panMasCaro : ProductoCreate := ⟨"Pan", 999, "Pan", none, true⟩

/-- The customer-change payload for the snapshot-isolation witness. -/
def anaNueva : ClienteCreate := ⟨"Ana Nueva", "888", none, none⟩

/-- Witness for C6: compose the sample order, then raise the price of
`prod-1` to 999 and rename the customer — re-reading `ped-1` still returns
the original snapshot with unit price 3 and customer name `Ana`. -/
theorem claim_C6_witness :
    (actualizar_producto dbTrasEjemplo "prod-1" panMasCaro).1.pedidos
        = dbTrasEjemplo.pedidos
    ∧ (actualizar_cliente dbTrasEjemplo "cli-1" anaNueva).1.pedidos
        = dbTrasEjemplo.pedidos
    ∧ obtener_pedido (actualizar_producto dbTrasEjemplo "prod-1" panMasCaro).1
        pedidoEjemplo.id = .ok pedidoEjemplo
    ∧ obtener_pedido (actualizar_cliente dbTrasEjemplo "cli-1" anaNueva).1
        pedidoEjemplo.id = .ok pedidoEjemplo :=
  claim_C6 dbEjemplo "ped-1" 7 reqEjemplo dbTrasEjemplo pedidoEjemplo
    "prod-1" "cli-1" panMasCaro anaNueva crear_pedido_ejemplo (by decide)
